import Mathlib

/-!
Shallow embedding of `scripts/monitor_deployment.py` (class `DeploymentMonitor`).

Numeric metric values are modelled as rationals (`ℚ`); Python floats carry
exact decimal constants here (5.0, 80.0, 85.0, 2000, 1000) and all source
comparisons are order comparisons, so `ℚ` is a faithful executable model.

External collaborators (CloudWatch, the OpenAI classifier, ECS, Slack) are
modelled as explicit inputs: each monitoring tick carries the data those
collaborators would have returned on that tick, and the monitoring loop is a
pure function from the list of tick inputs to the trace of observable events
(alerts dispatched, rollback invocations).  `send_alert` catches its own
delivery errors in the source, so dispatching an alert is modelled as simply
emitting an event.  The `KeyboardInterrupt` and catch-all `except` arms of the
loop only end the session early or skip a tick; they introduce no events and
are represented by a shorter or sparser tick list.
-/

/-- Snapshot of current deployment metrics, as built by
`DeploymentMonitor.get_current_metrics` (the `timestamp` field of the source
dict is bookkeeping only and is not consulted by any decision, so it is
omitted). -/
structure Metrics where
  error_rate : ℚ
  avg_latency : ℚ
  cpu_usage : ℚ
  memory_usage : ℚ
deriving DecidableEq, Repr

/-- Baseline metrics, as built by `DeploymentMonitor.get_baseline_metrics`:
only `error_rate` and `cpu_usage` are captured. -/
structure Baseline where
  error_rate : ℚ
  cpu_usage : ℚ
deriving DecidableEq, Repr

/-- Threshold table `self.thresholds` set in `DeploymentMonitor.__init__`:
five named ceilings, including both `response_time` (2000 ms) and a separate
`latency` (1000 ms) entry. -/
structure Thresholds where
  error_rate : ℚ
  cpu_usage : ℚ
  memory_usage : ℚ
  response_time : ℚ
  latency : ℚ
deriving DecidableEq, Repr

/-- Values assigned to `self.thresholds` in `__init__`. -/
def defaultThresholds : Thresholds :=
  { error_rate := 5, cpu_usage := 80, memory_usage := 85
    response_time := 2000, latency := 1000 }

/-- One threshold alert string produced by `check_thresholds`; each
constructor corresponds to one of the four f-strings and carries the observed
metric value interpolated into that string. -/
inductive Alert where
  | highErrorRate (value : ℚ)
  | highCpuUsage (value : ℚ)
  | highMemoryUsage (value : ℚ)
  | highResponseTime (value : ℚ)
deriving DecidableEq, Repr

/-- Position of each alert kind in the fixed check order of
`check_thresholds` (error rate, CPU, memory, latency-vs-response_time). -/
def alertIdx : Alert → Nat
  | Alert.highErrorRate _ => 0
  | Alert.highCpuUsage _ => 1
  | Alert.highMemoryUsage _ => 2
  | Alert.highResponseTime _ => 3

/-- Embedding of `DeploymentMonitor.check_thresholds`: appends one alert per
strict threshold breach, in the source order.  Note the latency check
compares `avg_latency` against `thresholds['response_time']`; the
`thresholds['latency']` entry is not read. -/
def check_thresholds (th : Thresholds) (m : Metrics) : List Alert :=
  (if m.error_rate > th.error_rate then [Alert.highErrorRate m.error_rate] else []) ++
  (if m.cpu_usage > th.cpu_usage then [Alert.highCpuUsage m.cpu_usage] else []) ++
  (if m.memory_usage > th.memory_usage then [Alert.highMemoryUsage m.memory_usage] else []) ++
  (if m.avg_latency > th.response_time then [Alert.highResponseTime m.avg_latency] else [])

/-- Value of `datapoints[-1][statistic] if datapoints else 0`: the last
datapoint of a CloudWatch response, or 0 when the response holds no
datapoints. -/
def lastOr0 (datapoints : List ℚ) : ℚ :=
  (datapoints.getLast?).getD 0

/-- Embedding of `DeploymentMonitor.get_baseline_metrics`.  `err` and `cpu`
are the datapoint lists CloudWatch returned for the two baseline queries;
`ok = false` models any exception raised while fetching (the `except` arm),
in which case the source logs the error and returns the literal default
`{'error_rate': 0, 'cpu_usage': 0}` — it does not raise. -/
def get_baseline_metrics (err cpu : List ℚ) (ok : Bool) : Baseline :=
  if ok then
    { error_rate := lastOr0 err, cpu_usage := lastOr0 cpu }
  else
    { error_rate := 0, cpu_usage := 0 }

/-- Embedding of `DeploymentMonitor.get_current_metrics`.  The four lists are
the datapoint lists CloudWatch returned for error rate, latency, CPU and
memory; `ok = false` models an exception during the fetch, the only path on
which the source returns `None`.  On success each field is the last datapoint
of its list, with 0 substituted when the list is empty. -/
def get_current_metrics (err lat cpu mem : List ℚ) (ok : Bool) : Option Metrics :=
  if ok then
    some { error_rate := lastOr0 err, avg_latency := lastOr0 lat
           cpu_usage := lastOr0 cpu, memory_usage := lastOr0 mem }
  else
    none

/-- Derived error-rate signal computed at the top of
`DeploymentMonitor.detect_anomalies` and interpolated into the classifier
prompt. -/
def error_change (current : Metrics) (baseline : Baseline) : ℚ :=
  ((current.error_rate - baseline.error_rate) / max baseline.error_rate 1) * 100

/-- Derived CPU signal computed in `DeploymentMonitor.detect_anomalies`:
plain percentage-point difference. -/
def cpu_change (current : Metrics) (baseline : Baseline) : ℚ :=
  current.cpu_usage - baseline.cpu_usage

/-- Parsed JSON verdict returned by the classifier, with each field optional:
the monitoring loop reads every field with `dict.get`, so absent fields are
representable.  `anomaly_detected` is read by truthiness of
`anomaly_analysis.get('anomaly_detected')`, i.e. a missing field counts as
false. -/
structure AnomalyAnalysis where
  anomaly_detected : Option Bool
  severity : Option String
  causes : Option (List String)
  recommendations : Option (List String)
  rollback_recommended : Option Bool
  confidence : Option ℚ
deriving DecidableEq, Repr

/-- Observable outcome of `DeploymentMonitor.rollback_deployment`: the boolean
the function returns, the arguments of every `ecs.update_service` call it
issued, and the messages it printed. -/
structure RollbackOutcome where
  success : Bool
  switch_calls : List String
  log : List String
deriving DecidableEq, Repr

/-- Embedding of `DeploymentMonitor.rollback_deployment`.  `revisions` is the
`taskDefinitionArns` list returned by `ecs.list_task_definitions` with
`sort='DESC'` (newest first); `switchOk rev` tells whether the
`ecs.update_service` call for `rev` succeeds (`false` models the raised
exception caught by the `except` arm). -/
def rollback_deployment (revisions : List String) (switchOk : String → Bool) :
    RollbackOutcome :=
  match revisions with
  | _ :: prev :: _ =>
    if switchOk prev then
      { success := true, switch_calls := [prev]
        log := ["Rollback initiated to: " ++ prev] }
    else
      { success := false, switch_calls := [prev]
        log := ["Error during rollback"] }
  | _ =>
    { success := false, switch_calls := []
      log := ["No previous version available for rollback"] }

/-- Observable event emitted by one pass of the monitoring loop, in program
order: a threshold alert (`send_alert(..., "WARNING")` with the joined alert
list), an anomaly alert (`send_alert(alert_message, severity)` whose message
interpolates severity, causes, recommendations and the rollback
recommendation), the pre-rollback CRITICAL alert, the invocation of
`rollback_deployment`, and the success (INFO) or failure (CRITICAL) result
alert. -/
inductive Event where
  | thresholdAlert (alerts : List Alert)
  | anomalyAlert (severity : String) (causes recommendations : List String)
      (rollback_recommended : Bool)
  | preRollbackAlert
  | rollbackInvoked (revisions : List String)
  | rollbackSucceededAlert
  | rollbackFailedAlert
deriving DecidableEq, Repr

/-- Whether an event is an invocation of the rollback executor. -/
def isRollbackInvoked : Event → Bool
  | Event.rollbackInvoked _ => true
  | _ => false

/-- Inputs one tick of the monitoring loop receives from its collaborators:
the metrics fetch result (`none` when `get_current_metrics` returned `None`),
the classifier result (`none` when `detect_anomalies` returned `None`), and
the ECS state `rollback_deployment` would see if invoked on this tick. -/
structure Tick where
  metrics : Option Metrics
  analysis : Option AnomalyAnalysis
  revisions : List String
  switchOk : String → Bool

/-- One iteration of the `while` body of `DeploymentMonitor.monitor`: the
events it emits and whether it ends in `break`.  Mirrors the source order:
skip on missing metrics; threshold alert when `check_thresholds` is
non-empty; on a detected anomaly, default missing fields
(`severity → 'MEDIUM'`, `causes/recommendations → []`,
`rollback_recommended → False`), dispatch the anomaly alert, and when
severity is CRITICAL with rollback recommended, dispatch the pre-rollback
alert, run `rollback_deployment`, dispatch the result alert and `break`. -/
def tickStep (th : Thresholds) (t : Tick) : List Event × Bool :=
  match t.metrics with
  | none => ([], false)
  | some m =>
    let ta := check_thresholds th m
    let thresholdEvents := if ta = [] then [] else [Event.thresholdAlert ta]
    match t.analysis with
    | none => (thresholdEvents, false)
    | some a =>
      if a.anomaly_detected.getD false then
        let severity := a.severity.getD "MEDIUM"
        let rollback_recommended := a.rollback_recommended.getD false
        let anomalyEvents :=
          [Event.anomalyAlert severity (a.causes.getD []) (a.recommendations.getD [])
            rollback_recommended]
        if severity = "CRITICAL" ∧ rollback_recommended = true then
          let outcome := rollback_deployment t.revisions t.switchOk
          (thresholdEvents ++ anomalyEvents ++
            [Event.preRollbackAlert, Event.rollbackInvoked t.revisions,
             if outcome.success then Event.rollbackSucceededAlert
             else Event.rollbackFailedAlert], true)
        else
          (thresholdEvents ++ anomalyEvents, false)
      else
        (thresholdEvents, false)

/-- Embedding of the `while` loop of `DeploymentMonitor.monitor`: the bounded
session is the list of ticks (one entry per loop iteration the deadline
allows); the result is the trace of events.  A tick ending in `break` stops
the loop. -/
def monitor (th : Thresholds) : List Tick → List Event
  | [] => []
  | t :: ts =>
    if (tickStep th t).2 then (tickStep th t).1
    else (tickStep th t).1 ++ monitor th ts

/-- Session bootstrap: `__init__` computes `self.baseline_metrics` via
`get_baseline_metrics` (unconditionally — construction never fails), then
`monitor` runs the loop.  The pair records the baseline the session holds and
the trace the loop produces. -/
def runSession (baselineErr baselineCpu : List ℚ) (baselineOk : Bool)
    (th : Thresholds) (ticks : List Tick) : Baseline × List Event :=
  (get_baseline_metrics baselineErr baselineCpu baselineOk, monitor th ticks)

/-- Concrete verdict used in witnesses: detected, CRITICAL, rollback
recommended. -/
def criticalVerdict : AnomalyAnalysis :=
  { anomaly_detected := some true, severity := some "CRITICAL", causes := none,
    recommendations := none, rollback_recommended := some true, confidence := none }

/-- Concrete verdict used in witnesses: detected, but omitting both the
severity and the rollback recommendation fields. -/
def missingFieldsVerdict : AnomalyAnalysis :=
  { anomaly_detected := some true, severity := none, causes := none,
    recommendations := none, rollback_recommended := none, confidence := none }

/-- Concrete tick used in witnesses: healthy metrics, a complete CRITICAL
verdict recommending rollback, two ECS revisions, and a platform accepting
the switch. -/
def criticalTick : Tick :=
  { metrics := some { error_rate := 0, avg_latency := 0, cpu_usage := 0, memory_usage := 0 },
    analysis := some criticalVerdict,
    revisions := ["rev-b", "rev-a"], switchOk := fun _ => true }

/-- Concrete tick used in witnesses: a detected verdict that omits both the
severity and the rollback recommendation fields. -/
def partialVerdictTick : Tick :=
  { metrics := some { error_rate := 0, avg_latency := 0, cpu_usage := 0, memory_usage := 0 },
    analysis := some missingFieldsVerdict,
    revisions := ["rev-b", "rev-a"], switchOk := fun _ => true }

/-- C3: `check_thresholds` returns exactly one alert for each metric whose
value strictly exceeds its ceiling, each alert carrying that metric's observed
value, in the fixed check order error rate, CPU, memory, latency; the alert
count equals the number of breached ceilings (so a single breach yields a
single alert naming that metric). -/
theorem check_thresholds_correct (th : Thresholds) (m : Metrics) :
    (∀ v, Alert.highErrorRate v ∈ check_thresholds th m ↔
      (m.error_rate > th.error_rate ∧ v = m.error_rate)) ∧
    (∀ v, Alert.highCpuUsage v ∈ check_thresholds th m ↔
      (m.cpu_usage > th.cpu_usage ∧ v = m.cpu_usage)) ∧
    (∀ v, Alert.highMemoryUsage v ∈ check_thresholds th m ↔
      (m.memory_usage > th.memory_usage ∧ v = m.memory_usage)) ∧
    (∀ v, Alert.highResponseTime v ∈ check_thresholds th m ↔
      (m.avg_latency > th.response_time ∧ v = m.avg_latency)) ∧
    List.Pairwise (fun a b => alertIdx a < alertIdx b) (check_thresholds th m) ∧
    (check_thresholds th m).length =
      ((if m.error_rate > th.error_rate then 1 else 0) +
       (if m.cpu_usage > th.cpu_usage then 1 else 0) +
       (if m.memory_usage > th.memory_usage then 1 else 0) +
       (if m.avg_latency > th.response_time then 1 else 0)) := by
  unfold check_thresholds
  split_ifs with h1 h2 h3 h4 <;>
    simp_all [alertIdx, List.pairwise_cons, eq_comm]

/-- Witness for `check_thresholds_correct` at a concrete snapshot with exactly
one breach (CPU at 95 against an 80 ceiling). -/
theorem check_thresholds_correct_witness :
    (Alert.highCpuUsage 95 ∈
        check_thresholds defaultThresholds
          { error_rate := 1, avg_latency := 500, cpu_usage := 95, memory_usage := 40 } ↔
      ((95 : ℚ) > 80 ∧ (95 : ℚ) = 95)) ∧
    (check_thresholds defaultThresholds
        { error_rate := 1, avg_latency := 500, cpu_usage := 95, memory_usage := 40 }).length =
      (0 + 1 + 0 + 0) := by
  constructor
  · exact (check_thresholds_correct defaultThresholds
      { error_rate := 1, avg_latency := 500, cpu_usage := 95, memory_usage := 40 }).2.1 95
  · have h := (check_thresholds_correct defaultThresholds
      { error_rate := 1, avg_latency := 500, cpu_usage := 95, memory_usage := 40 }).2.2.2.2.2
    simpa using h

/-- C4: when every metric is strictly below its ceiling, `check_thresholds`
returns the empty list.  Totality ("never fails") is inherent: the embedding
is a total function on all snapshots. -/
theorem check_thresholds_empty_below (th : Thresholds) (m : Metrics)
    (h1 : m.error_rate < th.error_rate) (h2 : m.cpu_usage < th.cpu_usage)
    (h3 : m.memory_usage < th.memory_usage) (h4 : m.avg_latency < th.response_time) :
    check_thresholds th m = [] := by
  unfold check_thresholds
  rw [if_neg (asymm h1), if_neg (asymm h2), if_neg (asymm h3), if_neg (asymm h4)]
  rfl

/-- Witness for `check_thresholds_empty_below` at a concrete healthy
snapshot. -/
theorem check_thresholds_empty_below_witness :
    check_thresholds defaultThresholds
      { error_rate := 0, avg_latency := 100, cpu_usage := 22, memory_usage := 30 } = [] :=
  check_thresholds_empty_below defaultThresholds
    { error_rate := 0, avg_latency := 100, cpu_usage := 22, memory_usage := 30 }
    (by norm_num [defaultThresholds]) (by norm_num [defaultThresholds])
    (by norm_num [defaultThresholds]) (by norm_num [defaultThresholds])

/-- C8: the derived error-rate signal divides by the baseline error rate
floored at 1 (so the divisor is at least 1 and the formula degenerates to
`current.error_rate * 100` on a zero baseline), and the derived CPU signal is
the plain percentage-point difference. -/
theorem derived_signals_spec (c : Metrics) (b : Baseline) :
    error_change c b = ((c.error_rate - b.error_rate) / max b.error_rate 1) * 100 ∧
    (1 : ℚ) ≤ max b.error_rate 1 ∧
    (b.error_rate = 0 → error_change c b = c.error_rate * 100) ∧
    cpu_change c b = c.cpu_usage - b.cpu_usage := by
  refine ⟨rfl, le_max_right _ _, ?_, rfl⟩
  intro h
  simp [error_change, h]

/-- Witness for `derived_signals_spec`: a zero baseline error rate yields the
degenerate formula at a concrete snapshot. -/
theorem derived_signals_spec_witness :
    error_change { error_rate := 7, avg_latency := 100, cpu_usage := 50, memory_usage := 40 }
      { error_rate := 0, cpu_usage := 20 } = 700 := by
  have h := (derived_signals_spec
    { error_rate := 7, avg_latency := 100, cpu_usage := 50, memory_usage := 40 }
    { error_rate := 0, cpu_usage := 20 }).2.2.1 rfl
  norm_num at h
  exact h

/-- C6 counterexample: with the fetch succeeding but every CloudWatch
response holding no datapoints, `get_current_metrics` does not return
Unavailable — it returns a snapshot with 0 substituted for every metric. -/
theorem get_current_metrics_zero_fill_counterexample :
    get_current_metrics [] [] [] [] true ≠ none ∧
    get_current_metrics [] [] [] [] true =
      some { error_rate := 0, avg_latency := 0, cpu_usage := 0, memory_usage := 0 } := by
  decide

/-- C6 amended: on a successful fetch each metric is the last datapoint of its
window with 0 silently substituted when the window has no datapoints, and the
result is Unavailable (`none`) exactly when the fetch raises an exception. -/
theorem get_current_metrics_amended (err lat cpu mem : List ℚ) :
    get_current_metrics err lat cpu mem true =
      some { error_rate := lastOr0 err, avg_latency := lastOr0 lat
             cpu_usage := lastOr0 cpu, memory_usage := lastOr0 mem } ∧
    lastOr0 ([] : List ℚ) = 0 ∧
    get_current_metrics err lat cpu mem false = none :=
  ⟨rfl, rfl, rfl⟩

/-- C7 counterexample: with the baseline collaborator unreachable
(`baselineOk = false`) the session still runs — here it evaluates a tick and
dispatches a threshold alert — holding the substituted default zero baseline
instead of failing fast. -/
theorem baseline_failure_counterexample :
    (runSession [] [] false defaultThresholds
        [{ metrics := some { error_rate := 10, avg_latency := 100, cpu_usage := 20, memory_usage := 30 },
           analysis := none, revisions := [], switchOk := fun _ => false }]).1 =
      { error_rate := 0, cpu_usage := 0 } ∧
    (runSession [] [] false defaultThresholds
        [{ metrics := some { error_rate := 10, avg_latency := 100, cpu_usage := 20, memory_usage := 30 },
           analysis := none, revisions := [], switchOk := fun _ => false }]).2 =
      [Event.thresholdAlert [Alert.highErrorRate 10]] := by
  constructor
  · rfl
  · decide

/-- C7 amended: when fetching the baseline fails, the session substitutes the
default zero baseline and proceeds to run the monitoring loop exactly as if
startup had succeeded. -/
theorem baseline_failure_amended (err cpu : List ℚ) (th : Thresholds) (ticks : List Tick) :
    runSession err cpu false th ticks =
      ({ error_rate := 0, cpu_usage := 0 }, monitor th ticks) :=
  rfl

/-- C5: with fewer than two active revisions, `rollback_deployment` returns a
failure whose logged reason is the no-previous-version message and issues no
`update_service` call; with two or more revisions (newest first) it calls
`update_service` with exactly the second-newest revision. -/
theorem rollback_deployment_spec (revisions : List String) (switchOk : String → Bool) :
    (revisions.length < 2 →
      rollback_deployment revisions switchOk =
        { success := false, switch_calls := []
          log := ["No previous version available for rollback"] }) ∧
    (∀ newest second rest, revisions = newest :: second :: rest →
      (rollback_deployment revisions switchOk).switch_calls = [second]) := by
  constructor
  · intro h
    cases revisions with
    | nil => rfl
    | cons a t =>
      cases t with
      | nil => rfl
      | cons b r => simp at h; omega
  · rintro newest second rest rfl
    cases hs : switchOk second <;> simp [rollback_deployment, hs]

/-- Witness for `rollback_deployment_spec`: one revision yields the
no-previous-version failure; two revisions switch to the second-newest. -/
theorem rollback_deployment_spec_witness :
    rollback_deployment ["only-revision"] (fun _ => true) =
      { success := false, switch_calls := []
        log := ["No previous version available for rollback"] } ∧
    (rollback_deployment ["rev-new", "rev-prev"] (fun _ => true)).switch_calls =
      ["rev-prev"] :=
  ⟨(rollback_deployment_spec ["only-revision"] (fun _ => true)).1 (by decide),
   (rollback_deployment_spec ["rev-new", "rev-prev"] (fun _ => true)).2
     "rev-new" "rev-prev" [] rfl⟩

/-- Changing only the `latency` entry of the threshold table does not change
`check_thresholds`. -/
lemma check_thresholds_latency_irrel (th : Thresholds) (lat : ℚ) (m : Metrics) :
    check_thresholds { th with latency := lat } m = check_thresholds th m :=
  rfl

/-- Changing only the `latency` entry of the threshold table does not change a
loop tick. -/
lemma tickStep_latency_irrel (th : Thresholds) (lat : ℚ) (t : Tick) :
    tickStep { th with latency := lat } t = tickStep th t :=
  rfl

/-- Changing only the `latency` entry of the threshold table does not change
the monitoring trace. -/
lemma monitor_latency_irrel (th : Thresholds) (lat : ℚ) (ts : List Tick) :
    monitor { th with latency := lat } ts = monitor th ts := by
  induction ts with
  | nil => rfl
  | cons t ts ih => simp [monitor, tickStep_latency_irrel, ih]

/-- C9: the latency check of `check_thresholds` uses the 2000 ms
`response_time` ceiling, and the separate 1000 ms `latency` entry is never
consulted: the evaluator and the whole monitoring loop are invariant under
changing it, and a snapshot whose average latency lies strictly between 1000
and 2000 ms (other metrics within limits) produces no alert at all. -/
theorem latency_limit_unused :
    (∀ (th : Thresholds) (lat : ℚ) (m : Metrics),
      check_thresholds { th with latency := lat } m = check_thresholds th m) ∧
    (∀ (th : Thresholds) (lat : ℚ) (ts : List Tick),
      monitor { th with latency := lat } ts = monitor th ts) ∧
    (∀ m : Metrics, 1000 < m.avg_latency → m.avg_latency < 2000 →
      m.error_rate ≤ 5 → m.cpu_usage ≤ 80 → m.memory_usage ≤ 85 →
      check_thresholds defaultThresholds m = []) := by
  refine ⟨check_thresholds_latency_irrel, monitor_latency_irrel, ?_⟩
  intro m h1 h2 h3 h4 h5
  simp only [check_thresholds, defaultThresholds]
  split_ifs <;> first | rfl | linarith

/-- Witness for `latency_limit_unused`: a 1500 ms average latency with healthy
other metrics yields no alert. -/
theorem latency_limit_unused_witness :
    check_thresholds defaultThresholds
      { error_rate := 1, avg_latency := 1500, cpu_usage := 50, memory_usage := 50 } = [] :=
  latency_limit_unused.2.2
    { error_rate := 1, avg_latency := 1500, cpu_usage := 50, memory_usage := 50 }
    (by norm_num) (by norm_num) (by norm_num) (by norm_num) (by norm_num)

/-- Threshold-alert events are never rollback invocations. -/
lemma no_invoked_thresholdEvents (ta : List Alert) :
    ((if ta = [] then [] else [Event.thresholdAlert ta]).all
      fun e => !isRollbackInvoked e) = true := by
  split_ifs <;> simp [isRollbackInvoked]

/-- Case analysis of one loop iteration: either the tick does not break and
emits no rollback invocation, or it breaks, emitting only non-rollback events
followed by exactly the invocation (on this tick's ECS revision list) and its
result alert, and on such a tick the classifier verdict had
`anomaly_detected` truthy, defaulted severity CRITICAL, and defaulted
rollback recommendation true. -/
lemma tickStep_cases (th : Thresholds) (t : Tick) :
    (∃ es, tickStep th t = (es, false) ∧
      (es.all fun e => !isRollbackInvoked e) = true) ∨
    (∃ pre, (pre.all fun e => !isRollbackInvoked e) = true ∧
      tickStep th t = (pre ++ [Event.rollbackInvoked t.revisions,
        if (rollback_deployment t.revisions t.switchOk).success then
          Event.rollbackSucceededAlert else Event.rollbackFailedAlert], true) ∧
      ∃ m a, t.metrics = some m ∧ t.analysis = some a ∧
        a.anomaly_detected.getD false = true ∧
        a.severity.getD "MEDIUM" = "CRITICAL" ∧
        a.rollback_recommended.getD false = true) := by
  cases hm : t.metrics with
  | none => exact Or.inl ⟨[], by simp [tickStep, hm], rfl⟩
  | some m =>
    cases ha : t.analysis with
    | none =>
      exact Or.inl ⟨if check_thresholds th m = [] then []
          else [Event.thresholdAlert (check_thresholds th m)],
        by simp [tickStep, hm, ha], no_invoked_thresholdEvents _⟩
    | some a =>
      cases hd : a.anomaly_detected.getD false with
      | false =>
        exact Or.inl ⟨if check_thresholds th m = [] then []
            else [Event.thresholdAlert (check_thresholds th m)],
          by simp [tickStep, hm, ha, hd], no_invoked_thresholdEvents _⟩
      | true =>
        by_cases hc : a.severity.getD "MEDIUM" = "CRITICAL" ∧
            a.rollback_recommended.getD false = true
        · refine Or.inr ⟨(if check_thresholds th m = [] then []
              else [Event.thresholdAlert (check_thresholds th m)]) ++
              [Event.anomalyAlert "CRITICAL" (a.causes.getD []) (a.recommendations.getD []) true,
               Event.preRollbackAlert],
            ?_, ?_, m, a, rfl, rfl, hd, hc.1, hc.2⟩
          · simp [List.all_append, no_invoked_thresholdEvents, isRollbackInvoked]
          · simp [tickStep, hm, ha, hd, hc.1, hc.2]
        · refine Or.inl ⟨(if check_thresholds th m = [] then []
              else [Event.thresholdAlert (check_thresholds th m)]) ++
              [Event.anomalyAlert (a.severity.getD "MEDIUM") (a.causes.getD [])
                (a.recommendations.getD []) (a.rollback_recommended.getD false)],
            ?_, ?_⟩
          · simp [tickStep, hm, ha, hd, hc]
          · simp [List.all_append, no_invoked_thresholdEvents, isRollbackInvoked]

/-- Shape of a whole monitoring trace: either it holds no rollback invocation
at all, or it is a rollback-free prefix followed by exactly one invocation and
its success or failure alert, and nothing after. -/
lemma monitor_shape (th : Thresholds) (ts : List Tick) :
    ((monitor th ts).all fun e => !isRollbackInvoked e) = true ∨
    ∃ (pre : List Event) (revs : List String) (r : Bool),
      (pre.all fun e => !isRollbackInvoked e) = true ∧
      monitor th ts = pre ++ [Event.rollbackInvoked revs,
        if r then Event.rollbackSucceededAlert else Event.rollbackFailedAlert] := by
  induction ts with
  | nil => exact Or.inl rfl
  | cons t ts ih =>
    rcases tickStep_cases th t with ⟨es, he, hall⟩ | ⟨pre, hall, he, _⟩
    · have hmon : monitor th (t :: ts) = es ++ monitor th ts := by simp [monitor, he]
      rcases ih with h1 | ⟨pre, revs, r, hall2, he2⟩
      · exact Or.inl (by rw [hmon]; simp [List.all_append, hall, h1])
      · exact Or.inr ⟨es ++ pre, revs, r, by simp [List.all_append, hall, hall2],
          by rw [hmon, he2, List.append_assoc]⟩
    · exact Or.inr ⟨pre, t.revisions,
        (rollback_deployment t.revisions t.switchOk).success, hall,
        by simp [monitor, he]⟩

/-- Lists whose events are all non-rollback have rollback count zero. -/
lemma countP_zero_of_no_invoked (l : List Event)
    (h : (l.all fun e => !isRollbackInvoked e) = true) :
    l.countP isRollbackInvoked = 0 := by
  rw [List.countP_eq_zero]
  intro a ha
  have hb := List.all_eq_true.mp h a ha
  simp only [Bool.not_eq_true'] at hb
  simp [hb]

/-- Any rollback invocation in a trace originates in a tick whose classifier
verdict was detected, CRITICAL after defaulting, and rollback-recommended
after defaulting; the invocation uses that tick's revision list. -/
lemma monitor_invoked_trigger (th : Thresholds) (ts : List Tick) (revs : List String)
    (h : Event.rollbackInvoked revs ∈ monitor th ts) :
    ∃ t ∈ ts, revs = t.revisions ∧ ∃ m a, t.metrics = some m ∧ t.analysis = some a ∧
      a.anomaly_detected.getD false = true ∧
      a.severity.getD "MEDIUM" = "CRITICAL" ∧
      a.rollback_recommended.getD false = true := by
  induction ts with
  | nil => simp [monitor] at h
  | cons t ts ih =>
    rcases tickStep_cases th t with ⟨es, he, hall⟩ | ⟨pre, hall, he, m, a, hma, haa, hd, hs, hr⟩
    · have hmon : monitor th (t :: ts) = es ++ monitor th ts := by simp [monitor, he]
      rw [hmon, List.mem_append] at h
      rcases h with h | h
      · have hb := List.all_eq_true.mp hall _ h
        simp [isRollbackInvoked] at hb
      · obtain ⟨t', ht', rest⟩ := ih h
        exact ⟨t', List.mem_cons_of_mem _ ht', rest⟩
    · have hmon : monitor th (t :: ts) = pre ++ [Event.rollbackInvoked t.revisions,
          if (rollback_deployment t.revisions t.switchOk).success then
            Event.rollbackSucceededAlert else Event.rollbackFailedAlert] := by
        simp [monitor, he]
      rw [hmon, List.mem_append] at h
      rcases h with h | h
      · have hb := List.all_eq_true.mp hall _ h
        simp [isRollbackInvoked] at hb
      · simp only [List.mem_cons, List.mem_singleton] at h
        rcases h with h | h | h
        · exact ⟨t, List.mem_cons_self t ts, by injection h, m, a, hma, haa, hd, hs, hr⟩
        · exfalso
          cases hx : (rollback_deployment t.revisions t.switchOk).success <;>
            rw [hx] at h <;> simp at h
        · exact absurd h (List.not_mem_nil _)

/-- C1: the rollback action is attempted at most once per session: the trace
holds at most one rollback invocation, and either no invocation occurs or the
trace is a rollback-free prefix followed by exactly the invocation and its
success or failure alert — the loop terminates there and evaluates no further
tick, whatever the rollback outcome. -/
theorem monitor_rollback_at_most_once (th : Thresholds) (ts : List Tick) :
    (monitor th ts).countP isRollbackInvoked ≤ 1 ∧
    (((monitor th ts).all fun e => !isRollbackInvoked e) = true ∨
      ∃ (pre : List Event) (revs : List String) (r : Bool),
        (pre.all fun e => !isRollbackInvoked e) = true ∧
        monitor th ts = pre ++ [Event.rollbackInvoked revs,
          if r then Event.rollbackSucceededAlert else Event.rollbackFailedAlert]) := by
  refine ⟨?_, monitor_shape th ts⟩
  rcases monitor_shape th ts with h | ⟨pre, revs, r, hall, heq⟩
  · rw [countP_zero_of_no_invoked _ h]
    exact Nat.zero_le 1
  · rw [heq, List.countP_append, countP_zero_of_no_invoked _ hall]
    cases r <;> simp [List.countP_cons, isRollbackInvoked]

/-- C2: the loop invokes the rollback executor only when the classifier
verdict of that same tick was detected with (defaulted) severity CRITICAL and
(defaulted) rollback recommendation true; in particular threshold alerts
alone, or a missing classifier result, never cause a rollback — and the
invocation uses that tick's revision list. -/
theorem monitor_rollback_only_on_critical_verdict (th : Thresholds) (ts : List Tick)
    (revs : List String) (h : Event.rollbackInvoked revs ∈ monitor th ts) :
    ∃ t ∈ ts, revs = t.revisions ∧ ∃ m a, t.metrics = some m ∧ t.analysis = some a ∧
      a.anomaly_detected.getD false = true ∧
      a.severity.getD "MEDIUM" = "CRITICAL" ∧
      a.rollback_recommended.getD false = true :=
  monitor_invoked_trigger th ts revs h

/-- Witness for `monitor_rollback_only_on_critical_verdict` on a one-tick
session whose verdict is CRITICAL with rollback recommended. -/
theorem monitor_rollback_only_on_critical_verdict_witness :
    ∃ t ∈ ([criticalTick] : List Tick), ["rev-b", "rev-a"] = t.revisions ∧
      ∃ m a, t.metrics = some m ∧ t.analysis = some a ∧
        a.anomaly_detected.getD false = true ∧
        a.severity.getD "MEDIUM" = "CRITICAL" ∧
        a.rollback_recommended.getD false = true :=
  monitor_rollback_only_on_critical_verdict defaultThresholds [criticalTick]
    ["rev-b", "rev-a"] (by decide)

/-- C10: before the rollback decision a missing severity field is consumed as
MEDIUM and a missing rollback recommendation as false (the dispatched anomaly
alert carries exactly those defaults), and a session whose detected verdicts
all omit the severity or the recommendation field never invokes rollback. -/
theorem verdict_missing_fields_default :
    (∀ (th : Thresholds) (t : Tick) (m : Metrics) (a : AnomalyAnalysis),
      t.metrics = some m → t.analysis = some a → a.anomaly_detected.getD false = true →
      a.severity = none → a.rollback_recommended = none →
      Event.anomalyAlert "MEDIUM" (a.causes.getD []) (a.recommendations.getD []) false ∈
        (tickStep th t).1) ∧
    (∀ (th : Thresholds) (ts : List Tick),
      (∀ t ∈ ts, ∀ a : AnomalyAnalysis, t.analysis = some a →
        (a.severity = none ∨ a.rollback_recommended = none)) →
      ((monitor th ts).all fun e => !isRollbackInvoked e) = true) := by
  constructor
  · intro th t m a hm ha hd hs hr
    have hsev : a.severity.getD "MEDIUM" = "MEDIUM" := by rw [hs]; rfl
    have hrb : a.rollback_recommended.getD false = false := by rw [hr]; rfl
    simp [tickStep, hm, ha, hd, hsev, hrb]
  · intro th ts h
    rcases monitor_shape th ts with hall | ⟨pre, revs, r, hallp, heq⟩
    · exact hall
    · exfalso
      have hmem : Event.rollbackInvoked revs ∈ monitor th ts := by
        rw [heq]; simp
      obtain ⟨t, ht, _, m, a, hma, haa, hd, hsev, hrb⟩ :=
        monitor_invoked_trigger th ts revs hmem
      rcases h t ht a haa with hs | hr
      · rw [hs] at hsev
        exact absurd hsev (by decide)
      · rw [hr] at hrb
        exact absurd hrb (by decide)

/-- Witness for `verdict_missing_fields_default` on a tick whose detected
verdict omits both fields: the dispatched alert carries MEDIUM and false, and
the session performs no rollback. -/
theorem verdict_missing_fields_default_witness :
    Event.anomalyAlert "MEDIUM" [] [] false ∈ (tickStep defaultThresholds partialVerdictTick).1 ∧
    ((monitor defaultThresholds [partialVerdictTick]).all fun e => !isRollbackInvoked e) = true := by
  constructor
  · have h := verdict_missing_fields_default.1 defaultThresholds partialVerdictTick
      { error_rate := 0, avg_latency := 0, cpu_usage := 0, memory_usage := 0 }
      missingFieldsVerdict rfl rfl rfl rfl rfl
    simpa [missingFieldsVerdict] using h
  · refine verdict_missing_fields_default.2 defaultThresholds [partialVerdictTick] ?_
    intro t ht a ha
    rw [List.mem_singleton] at ht
    subst ht
    left
    have hA : a = missingFieldsVerdict := by
      simpa [partialVerdictTick] using ha.symm
    rw [hA]
    rfl
